import Mathlib

/-!
Verification of the `measure-final` orchestration script of the
kanban-comparison repository.

The script is sequential, effectful TypeScript; we embed it shallowly:

* filesystem existence (`existsSync`) becomes an oracle `ex : String → Bool`;
* the per-framework measurement subprocess (`execSync` of `measure-single.ts`
  followed by `JSON.parse`) becomes an oracle
  `meas : Framework → Option (List AggregatedStats)`, `none` modelling the
  `catch` branch (a thrown subprocess error or parse error);
* `process.exit(1)` / the overall run become `Except Nat`;
* file writes become a list of `(path, content)` pairs, with the JSON
  contents kept as structured values rather than serialized text;
* the sequential `for` loop over `FRAMEWORKS` becomes a `List.foldl` that
  also records a trace of per-framework measurement events, in order;
* JavaScript numbers become `ℚ` (the script only moves them around and
  compares them; the exact decimal rendering of a non-integral number in a
  template literal is abstracted by `jsNum`);
* `Array.prototype.sort` with the numeric comparator
  `(a, b) => a.jsUncompressed.median - b.jsUncompressed.median` is a stable
  sort by that key (ES2019 guarantees stability); we model it with the
  stable `List.insertionSort`.

The statistics producer (`measure-single.ts`) is not part of the sources;
its summary computation (IQR trimming, mean/median/stddev) is modelled from
the spec in the `SpecStats` section below.
-/

namespace MeasureFinal

/-- JavaScript `x || d` for an optional numeric field access `x`:
`undefined`, and the falsy number `0`, fall back to `d`. -/
def jsOrQ : Option ℚ → ℚ → ℚ
  | some v, d => if v = 0 then d else v
  | none, d => d

/-- JavaScript `x || d` for an optional string field access `x`:
`undefined`, and the falsy empty string, fall back to `d`. -/
def jsOrS : Option String → String → String
  | some v, d => if v = "" then d else v
  | none, d => d

/-- The `StatisticalSummary` interface of measure-final.ts (lines 55-62). -/
structure StatisticalSummary where
  mean : ℚ
  median : ℚ
  stddev : ℚ
  min : ℚ
  max : ℚ
  runs : ℚ
deriving DecidableEq

/-- The `page: 'home' | 'board'` union type. -/
inductive Page where
  | home
  | board
deriving DecidableEq

/-- The `AggregatedStats` interface of measure-final.ts (lines 64-79).
Note that it has no `networkCondition` field. -/
structure AggregatedStats where
  framework : String
  page : Page
  jsTransferred : StatisticalSummary
  jsUncompressed : StatisticalSummary
  compressionRatio : ℚ
  performanceScore : StatisticalSummary
  fcp : StatisticalSummary
  lcp : StatisticalSummary
  tbt : StatisticalSummary
  cls : StatisticalSummary
  si : StatisticalSummary
  compressionType : String
  chromeVersion : String
  measurementTimestamp : String
deriving DecidableEq

/-- One entry of the `FRAMEWORKS` configuration array. -/
structure Framework where
  name : String
  dir : String
  buildCheck : List String
deriving DecidableEq

/-- The `FRAMEWORKS` array of measure-final.ts (lines 81-94). -/
def FRAMEWORKS : List Framework := [
  ⟨"Next.js", "kanban-nextjs", [".next", "dist"]⟩,
  ⟨"Nuxt", "kanban-nuxt", [".output", "dist"]⟩,
  ⟨"Analog", "kanban-analog", ["dist"]⟩,
  ⟨"SolidStart", "kanban-solidstart", [".output", "dist"]⟩,
  ⟨"SvelteKit", "kanban-sveltekit", [".svelte-kit", "build"]⟩,
  ⟨"Qwik", "kanban-qwikcity", ["dist"]⟩,
  ⟨"Astro", "kanban-htmx", ["dist"]⟩,
  ⟨"TanStack Start", "kanban-tanstack", [".output", "dist"]⟩,
  ⟨"TanStack Start + Solid", "kanban-tanstack-solid", [".output", "dist"]⟩,
  ⟨"Marko", "kanban-marko", ["dist", "build"]⟩,
  ⟨"Go-Datastar", "kanban-go-datastar", ["bin"]⟩,
  ⟨"Hono-Datastar", "kanban-hono-datastar", ["dist"]⟩]

/-- `checkBuildExists` (lines 96-106): true iff some `buildCheck` directory
of the framework exists.  The `existsSync` oracle `ex` receives the path
relative to the working directory (`join(cwd, dir)` then `join(_, buildDir)`
in the source; the `cwd` prefix is common to every query and is dropped). -/
def checkBuildExists (ex : String → Bool) (fw : Framework) : Bool :=
  fw.buildCheck.any fun d => ex (fw.dir ++ "/" ++ d)

/-- The `missingBuilds` list accumulated by the validation loop of `main`
(lines 175-184): names of frameworks whose build was not found, in
`FRAMEWORKS` order. -/
def missingBuilds (ex : String → Bool) : List String :=
  (FRAMEWORKS.filter fun fw => !(checkBuildExists ex fw)).map Framework.name

/-- Zero-pad a digit string on the left to length `d`. -/
def padZeros (d : Nat) (s : String) : String :=
  String.mk (List.replicate (d - s.length) '0') ++ s

/-- JavaScript `Number.prototype.toFixed(d)`: round to `d` decimals, ties
toward +∞ (ES specification picks the larger candidate). -/
def toFixed (d : Nat) (q : ℚ) : String :=
  let scaled : Int := (q * (10 : ℚ) ^ d + 1 / 2).floor
  let sign := if scaled < 0 then "-" else ""
  let n := scaled.natAbs
  if d = 0 then sign ++ toString n
  else sign ++ toString (n / 10 ^ d) ++ "." ++ padZeros d (toString (n % 10 ^ d))

/-- `formatKB` (lines 108-110): `(bytes / 1024).toFixed(1)`. -/
def formatKB (bytes : ℚ) : String :=
  toFixed 1 (bytes / 1024)

/-- Rendering of a number in a template literal.  Integral values render as
in JavaScript; for non-integral values the exact decimal expansion of a
double is not representable here and the exact rational is printed instead.
No claim depends on these digits. -/
def jsNum (q : ℚ) : String :=
  if q.den = 1 then toString q.num
  else toString q.num ++ "/" ++ toString q.den

/-- The page-title part of `generateMarkdownTable` (line 116). -/
def pageTitle : Page → String
  | Page.home => "Home Page"
  | Page.board => "Board Page"

/-- The fixed leading lines of the markdown table (lines 116-119):
section title, sort note, column headers and separator row. -/
def tableHeaderStr (page : Page) : String :=
  "## " ++ pageTitle page ++ " Performance\n\n" ++
  "Sorted by raw bundle size (smallest first):\n\n" ++
  "| Framework | Raw (kB) | Compressed (kB) | Ratio | Perf Score | FCP (ms) | LCP (ms) |\n" ++
  "|-----------|----------|----------------|-------|------------|----------|----------|\n"

/-- One data row of the markdown table (lines 121-130). -/
def rowString (r : AggregatedStats) : String :=
  "| " ++ r.framework ++
  " | " ++ formatKB r.jsUncompressed.median ++ " ±" ++ formatKB r.jsUncompressed.stddev ++
  " | " ++ formatKB r.jsTransferred.median ++ " ±" ++ formatKB r.jsTransferred.stddev ++
  " | " ++ jsNum r.compressionRatio ++ "%" ++
  " | " ++ jsNum r.performanceScore.median ++ " ±" ++ toFixed 1 r.performanceScore.stddev ++
  " | " ++ jsNum r.fcp.median ++ " ±" ++ toFixed 0 r.fcp.stddev ++
  " | " ++ jsNum r.lcp.median ++ " ±" ++ toFixed 0 r.lcp.stddev ++ " |\n"

/-- The explanation block closing the table (lines 132-138), with the
runs / compression-type values already resolved. -/
def tableFooterStr (runsShown : ℚ) (ctype : String) : String :=
  "\n" ++
  "**Explanation:**\n" ++
  "- **Raw**: Uncompressed bundle size (actual code volume, more consistent for comparison)\n" ++
  "- **Compressed**: Bytes transferred over network (what users download)\n" ++
  "- **Ratio**: Percentage saved by compression (higher is better compression)\n" ++
  "- Values show median ±std dev from " ++ jsNum runsShown ++ " measurement runs\n" ++
  "- Compression type: " ++ ctype ++ "\n\n"

/-- `results.filter(r => r.page === page)` (line 113). -/
def pageResults (results : List AggregatedStats) (page : Page) : List AggregatedStats :=
  results.filter fun r => decide (r.page = page)

/-- The sort key order of line 114: ascending `jsUncompressed.median`. -/
def bundleLE (a b : AggregatedStats) : Prop :=
  a.jsUncompressed.median ≤ b.jsUncompressed.median

instance : DecidableRel bundleLE := fun a b =>
  inferInstanceAs (Decidable (a.jsUncompressed.median ≤ b.jsUncompressed.median))

instance : IsTotal AggregatedStats bundleLE :=
  ⟨fun a b => le_total a.jsUncompressed.median b.jsUncompressed.median⟩

instance : IsTrans AggregatedStats bundleLE :=
  ⟨fun _ _ _ h1 h2 => le_trans h1 h2⟩

/-- `sortedByBundle` (line 114): the page's records, stably sorted by the
median raw bundle size, smallest first. -/
def sortedByBundle (results : List AggregatedStats) (page : Page) : List AggregatedStats :=
  List.insertionSort bundleLE (pageResults results page)

/-- `generateMarkdownTable` (lines 112-141): header lines, one row per
sorted record, then the explanation block whose run count and compression
type come from the first sorted record with JavaScript `||` fallbacks
`|| 3` and `|| 'gzip'` (lines 137-138). -/
def generateMarkdownTable (results : List AggregatedStats) (page : Page) : String :=
  let sorted := sortedByBundle results page
  tableHeaderStr page ++
  String.join (sorted.map rowString) ++
  tableFooterStr
    (jsOrQ (sorted.head?.map fun r => r.jsTransferred.runs) 3)
    (jsOrS (sorted.head?.map fun r => r.compressionType) "gzip")

/-- The configuration produced by CLI parsing (lines 146-147 defaults). -/
structure Config where
  runs : Int
  network : String
deriving DecidableEq

/-- Digit-string value, most significant first. -/
def digitsVal (cs : List Char) : Nat :=
  cs.foldl (fun n c => n * 10 + (c.toNat - 48)) 0

/-- `parseInt(s, 10)`: skip leading whitespace, optional sign, then a
maximal digit prefix; `none` models `NaN` (no digits). Trailing
non-digit characters are ignored. -/
def jsParseInt (s : String) : Option Int :=
  let cs := s.data.dropWhile fun c => c == ' ' || c == '\t' || c == '\n' || c == '\r'
  match cs with
  | '-' :: rest =>
    let ds := rest.takeWhile Char.isDigit
    if ds.isEmpty then none else some (-(digitsVal ds : Int))
  | '+' :: rest =>
    let ds := rest.takeWhile Char.isDigit
    if ds.isEmpty then none else some (digitsVal ds : Int)
  | _ =>
    let ds := cs.takeWhile Char.isDigit
    if ds.isEmpty then none else some (digitsVal ds : Int)

/-- The argument loop of `main` (lines 149-166).  `--runs v` parses `v`
with `parseInt` and exits with code 1 on `NaN` or a value below 1;
`--network v` exits with code 1 unless `v` is `4g`, `3g` or `slow-3g`;
a flag in final position (no following value) and any other argument are
ignored.  A consumed value is skipped (the `i++`). -/
def parseLoop : List String → Int → String → Except Nat Config
  | [], runs, net => Except.ok ⟨runs, net⟩
  | [_], runs, net => Except.ok ⟨runs, net⟩
  | a :: v :: rest, runs, net =>
    if a = "--runs" then
      match jsParseInt v with
      | none => Except.error 1
      | some n => if n < 1 then Except.error 1 else parseLoop rest n net
    else if a = "--network" then
      if v = "4g" ∨ v = "3g" ∨ v = "slow-3g" then parseLoop rest runs v
      else Except.error 1
    else parseLoop (v :: rest) runs net

/-- CLI parsing with the defaults of lines 146-147: 10 runs, `4g`. -/
def parseArgs (args : List String) : Except Nat Config :=
  parseLoop args 10 "4g"

/-- One measurement event of the sequential loop: the subprocess for the
named framework ran and either succeeded or failed (the failure is what
`console.error` logs at line 213). -/
inductive Event where
  | measured (name : String) (ok : Bool)
deriving DecidableEq

/-- The mutable state of the measurement loop (lines 195-216):
`allResults`, `failedFrameworks`, and the ordered trace of subprocess
completions. -/
structure MeasureState where
  results : List AggregatedStats
  failed : List String
  trace : List Event
deriving DecidableEq

/-- One iteration of the measurement loop (lines 198-216): on success the
parsed records are appended to `allResults`; on failure the framework name
is appended to `failedFrameworks`. Either way an event is traced and the
loop continues. -/
def measureStep (meas : Framework → Option (List AggregatedStats))
    (st : MeasureState) (fw : Framework) : MeasureState :=
  match meas fw with
  | some rs => ⟨st.results ++ rs, st.failed, st.trace ++ [Event.measured fw.name true]⟩
  | none => ⟨st.results, st.failed ++ [fw.name], st.trace ++ [Event.measured fw.name false]⟩

/-- The whole measurement loop: a strictly sequential fold over the
framework list. -/
def runMeasurements (meas : Framework → Option (List AggregatedStats))
    (fws : List Framework) : MeasureState :=
  fws.foldl (measureStep meas) ⟨[], [], []⟩

/-- The `metadata` object of final-measurements.json (lines 230-237). -/
structure ResultsMetadata where
  timestamp : String
  runsPerPage : Int
  measurementType : String
  networkCondition : String
  chromeVersion : String
  compressionType : String
deriving DecidableEq

/-- The `resultsData` object written to final-measurements.json
(lines 229-239). -/
structure ResultsData where
  metadata : ResultsMetadata
  results : List AggregatedStats
deriving DecidableEq

/-- `resultsData` (lines 229-239).  `allResults[0]?.networkCondition` is
`undefined` because `AggregatedStats` has no such field, so the `||`
fallback always yields the CLI network condition; chromeVersion and
compressionType come from the first record with `|| 'unknown'` and
`|| 'gzip'` fallbacks. -/
def resultsData (now : String) (numRuns : Int) (network : String)
    (allResults : List AggregatedStats) : ResultsData :=
  { metadata :=
      { timestamp := now
        runsPerPage := numRuns
        measurementType := "cold-load"
        networkCondition := network
        chromeVersion := jsOrS (allResults.head?.map fun r => r.chromeVersion) "unknown"
        compressionType := jsOrS (allResults.head?.map fun r => r.compressionType) "gzip" }
    results := allResults }

/-- The title and Methodology section of the markdown report
(lines 246-255). -/
def methodologyStr (now : String) (numRuns : Int)
    (allResults : List AggregatedStats) : String :=
  "# Framework Performance Comparison\n\n" ++
  "*Measured: " ++ now ++ "*\n\n" ++
  "## Methodology\n\n" ++
  "- **Runs per page**: " ++ toString numRuns ++ "\n" ++
  "- **Measurement type**: Cold-load (cache cleared between runs)\n" ++
  "- **Device**: Mobile (Pixel 5 emulation)\n" ++
  "- **Network**: 4G throttling (10 Mbps down, 40ms RTT)\n" ++
  "- **CPU**: 1x (no throttling, to isolate bundle size impact)\n" ++
  "- **Lighthouse version**: " ++ jsOrS (allResults.head?.map fun r => r.chromeVersion) "unknown" ++ "\n" ++
  "- **Compression**: " ++ jsOrS (allResults.head?.map fun r => r.compressionType) "gzip" ++ "\n\n"

/-- The Failed Measurements section (lines 260-263). -/
def failedSection (failed : List String) : String :=
  "## Failed Measurements\n\n" ++
  "The following frameworks failed to measure: " ++
  String.intercalate ", " failed ++ "\n\n"

/-- The markdown report without the failure section: methodology followed
by the board table and the home table (lines 246-258). -/
def mdBase (now : String) (numRuns : Int) (allResults : List AggregatedStats) : String :=
  methodologyStr now numRuns allResults ++
  generateMarkdownTable allResults Page.board ++
  generateMarkdownTable allResults Page.home

/-- The full markdown report (lines 246-263): the failure section is
appended exactly when some framework failed. -/
def finalMarkdown (now : String) (numRuns : Int)
    (allResults : List AggregatedStats) (failed : List String) : String :=
  mdBase now numRuns allResults ++
  (if 0 < failed.length then failedSection failed else "")

/-- One entry of the legacy bundle-summary.json (lines 275-281). -/
structure LegacyEntry where
  framework : String
  jsUncompressed : ℚ
  jsTransferred : ℚ
  compressionRatio : ℚ
  requests : ℚ
deriving DecidableEq

/-- The per-record projection of the legacy summary (lines 275-281);
`requests` is hard-coded to 0. -/
def legacyEntry (r : AggregatedStats) : LegacyEntry :=
  ⟨r.framework, r.jsUncompressed.median, r.jsTransferred.median, r.compressionRatio, 0⟩

/-- The legacy bundle-summary.json object (lines 269-292): the same
filter-and-sort as the tables, per page. -/
structure LegacySummary where
  timestamp : String
  note : String
  boardPage : List LegacyEntry
  homePage : List LegacyEntry
deriving DecidableEq

/-- `legacySummary` (lines 269-292). -/
def legacySummary (now : String) (allResults : List AggregatedStats) : LegacySummary :=
  ⟨now,
   "Bundle sizes use raw (uncompressed) as primary, compressed in parentheses",
   (sortedByBundle allResults Page.board).map legacyEntry,
   (sortedByBundle allResults Page.home).map legacyEntry⟩

/-- The content of one written file, kept structured (the script serializes
the two JSON payloads with `JSON.stringify`). -/
inductive ReportContent where
  | jsonData (d : ResultsData)
  | mdText (s : String)
  | legacyData (l : LegacySummary)
deriving DecidableEq

/-- The three report writes of `main` (lines 228-296), in program order,
with their paths inside the metrics directory. -/
def reportWrites (now : String) (cfg : Config) (st : MeasureState) :
    List (String × ReportContent) :=
  [("metrics/final-measurements.json",
    ReportContent.jsonData (resultsData now cfg.runs cfg.network st.results)),
   ("metrics/final-measurements.md",
    ReportContent.mdText (finalMarkdown now cfg.runs st.results st.failed)),
   ("metrics/bundle-summary.json",
    ReportContent.legacyData (legacySummary now st.results))]

/-- The observable outcome of a completed run: the final loop state and the
ordered list of file writes. -/
structure RunOutput where
  state : MeasureState
  writes : List (String × ReportContent)
deriving DecidableEq

/-- The whole of `main` (lines 143-332): parse arguments (exiting with
code 1 on invalid flag values), validate every build (exiting with code 1
if any is missing, before any subprocess runs), then measure every
framework sequentially and write the three reports. -/
def mainModel (ex : String → Bool) (meas : Framework → Option (List AggregatedStats))
    (now : String) (args : List String) : Except Nat RunOutput :=
  match parseArgs args with
  | Except.error c => Except.error c
  | Except.ok cfg =>
    if 0 < (missingBuilds ex).length then Except.error 1
    else
      let st := runMeasurements meas FRAMEWORKS
      Except.ok ⟨st, reportWrites now cfg st⟩

/-! The statistics producer.  measure-single.ts is invoked by this script
but is not among the sources; the definitions below are modelled from the
spec (sections 1, 3, 4 and 8): raw samples are outlier-trimmed by the
interquartile range, and the summary fields are the trimmed set's mean,
middle-of-sorted median, population standard deviation, min, max and
count. -/

/-- Modelled from the spec: ascending sort of a raw sample list
(measure-single.ts is missing from the sources). -/
def sortQ (l : List ℚ) : List ℚ :=
  List.insertionSort (fun a b : ℚ => a ≤ b) l

/-- Modelled from the spec: arithmetic mean of a sample list
(measure-single.ts is missing from the sources). -/
def qmean (l : List ℚ) : ℚ :=
  l.sum / l.length

/-- Modelled from the spec, section 8: the median is the middle value of
the sorted sample list (measure-single.ts is missing from the sources). -/
def qmedian (l : List ℚ) : ℚ :=
  (sortQ l).getD (l.length / 2) 0

/-- Modelled from the spec: smallest sample
(measure-single.ts is missing from the sources). -/
def qmin : List ℚ → ℚ
  | [] => 0
  | x :: xs => xs.foldl min x

/-- Modelled from the spec: largest sample
(measure-single.ts is missing from the sources). -/
def qmax : List ℚ → ℚ
  | [] => 0
  | x :: xs => xs.foldl max x

/-- Modelled from the spec, section 4: population variance
(measure-single.ts is missing from the sources). -/
def popVariance (l : List ℚ) : ℚ :=
  ((l.map fun x => (x - qmean l) ^ 2).sum) / l.length

/-- Modelled from the spec, section 4: population standard deviation, the
square root of the population variance (measure-single.ts is missing from
the sources). -/
noncomputable def specStddev (l : List ℚ) : ℝ :=
  Real.sqrt ((popVariance l : ℚ) : ℝ)

/-- Modelled from the spec: the first quartile, taken at the quarter
position of the sorted samples (measure-single.ts is missing from the
sources). -/
def iqrQ1 (l : List ℚ) : ℚ :=
  (sortQ l).getD (l.length / 4) 0

/-- Modelled from the spec: the third quartile, taken at the three-quarter
position of the sorted samples (measure-single.ts is missing from the
sources). -/
def iqrQ3 (l : List ℚ) : ℚ :=
  (sortQ l).getD (3 * l.length / 4) 0

/-- Modelled from the spec, sections 1 and 4: interquartile-range outlier
trimming with Tukey fences at 1.5 × IQR (measure-single.ts is missing from
the sources). -/
def iqrTrim (l : List ℚ) : List ℚ :=
  l.filter fun x =>
    decide (iqrQ1 l - 3 / 2 * (iqrQ3 l - iqrQ1 l) ≤ x ∧
            x ≤ iqrQ3 l + 3 / 2 * (iqrQ3 l - iqrQ1 l))

/-- Modelled from the spec, section 3: the statistical summary record
produced for one metric of one framework/page (measure-single.ts is
missing from the sources). -/
structure SpecSummary where
  mean : ℚ
  median : ℚ
  stddev : ℝ
  min : ℚ
  max : ℚ
  runs : ℕ

/-- Modelled from the spec, sections 3 and 8: the summary of a raw sample
list is computed from the IQR-trimmed sample set, not from the raw samples
(measure-single.ts is missing from the sources). -/
noncomputable def computeSummary (samples : List ℚ) : SpecSummary :=
  { mean := qmean (iqrTrim samples)
    median := qmedian (iqrTrim samples)
    stddev := specStddev (iqrTrim samples)
    min := qmin (iqrTrim samples)
    max := qmax (iqrTrim samples)
    runs := (iqrTrim samples).length }

/-! Helper lemmas. -/

theorem sortQ_length (l : List ℚ) : (sortQ l).length = l.length :=
  (List.perm_insertionSort _ l).length_eq

theorem sortQ_mem {l : List ℚ} {x : ℚ} : x ∈ sortQ l ↔ x ∈ l :=
  (List.perm_insertionSort _ l).mem_iff

theorem sortQ_sorted (l : List ℚ) : (sortQ l).Sorted (fun a b : ℚ => a ≤ b) :=
  List.sorted_insertionSort _ l

theorem getD_mem {l : List ℚ} {i : ℕ} (h : i < l.length) : l.getD i 0 ∈ l := by
  rw [List.getD_eq_get l 0 h]
  exact List.get_mem l i h

theorem sortQ_getD_mem {l : List ℚ} {i : ℕ} (h : i < l.length) :
    (sortQ l).getD i 0 ∈ l := by
  have h' : i < (sortQ l).length := by rw [sortQ_length]; exact h
  exact sortQ_mem.mp (getD_mem h')

theorem sortQ_getD_le (l : List ℚ) {i j : ℕ} (hij : i ≤ j) (hj : j < l.length) :
    (sortQ l).getD i 0 ≤ (sortQ l).getD j 0 := by
  have hj' : j < (sortQ l).length := by rw [sortQ_length]; exact hj
  have hi' : i < (sortQ l).length := lt_of_le_of_lt hij hj'
  rw [List.getD_eq_get _ 0 hi', List.getD_eq_get _ 0 hj']
  rcases lt_or_eq_of_le hij with hlt | heq
  · exact (sortQ_sorted l).rel_get_of_lt hlt
  · subst heq
    rfl

theorem mem_iqrTrim {l : List ℚ} {x : ℚ} :
    x ∈ iqrTrim l ↔ x ∈ l ∧
      iqrQ1 l - 3 / 2 * (iqrQ3 l - iqrQ1 l) ≤ x ∧
      x ≤ iqrQ3 l + 3 / 2 * (iqrQ3 l - iqrQ1 l) := by
  simp [iqrTrim, List.mem_filter, and_assoc]

theorem iqrQ1_le_iqrQ3 {l : List ℚ} (h : l ≠ []) : iqrQ1 l ≤ iqrQ3 l := by
  have hpos : 0 < l.length := List.length_pos.mpr h
  have hle : l.length / 4 ≤ 3 * l.length / 4 := Nat.div_le_div_right (by omega)
  have hlt : 3 * l.length / 4 < l.length := by
    rw [Nat.div_lt_iff_lt_mul (by norm_num)]
    omega
  exact sortQ_getD_le l hle hlt

theorem iqrTrim_ne_nil {l : List ℚ} (h : l ≠ []) : iqrTrim l ≠ [] := by
  have hpos : 0 < l.length := List.length_pos.mpr h
  have hq13 : iqrQ1 l ≤ iqrQ3 l := iqrQ1_le_iqrQ3 h
  have hmem : iqrQ1 l ∈ l := by
    have hlt : l.length / 4 < l.length := Nat.div_lt_self hpos (by norm_num)
    exact sortQ_getD_mem hlt
  refine List.ne_nil_of_mem (mem_iqrTrim.mpr ⟨hmem, ?_, ?_⟩) <;> linarith

theorem qmedian_mem {l : List ℚ} (h : l ≠ []) : qmedian l ∈ l := by
  have hpos : 0 < l.length := List.length_pos.mpr h
  have hlt : l.length / 2 < l.length := Nat.div_lt_self hpos (by norm_num)
  exact sortQ_getD_mem hlt

theorem foldl_measureStep (meas : Framework → Option (List AggregatedStats))
    (fws : List Framework) (st : MeasureState) :
    fws.foldl (measureStep meas) st =
      ⟨st.results ++ (fws.filterMap meas).flatten,
       st.failed ++ ((fws.filter fun fw => (meas fw).isNone).map Framework.name),
       st.trace ++ (fws.map fun fw => Event.measured fw.name (meas fw).isSome)⟩ := by
  induction fws generalizing st with
  | nil => simp
  | cons fw fws ih =>
    cases h : meas fw with
    | some rs =>
      simp [List.foldl_cons, measureStep, h, ih, List.filterMap_cons, List.filter_cons]
    | none =>
      simp [List.foldl_cons, measureStep, h, ih, List.filterMap_cons, List.filter_cons]

theorem runMeasurements_eq (meas : Framework → Option (List AggregatedStats))
    (fws : List Framework) :
    runMeasurements meas fws =
      ⟨(fws.filterMap meas).flatten,
       (fws.filter fun fw => (meas fw).isNone).map Framework.name,
       fws.map fun fw => Event.measured fw.name (meas fw).isSome⟩ := by
  simpa [runMeasurements] using foldl_measureStep meas fws ⟨[], [], []⟩

theorem parseLoop_no_flags (args : List String) (runs : Int) (net : String)
    (h1 : "--runs" ∉ args) (h2 : "--network" ∉ args) :
    parseLoop args runs net = Except.ok ⟨runs, net⟩ := by
  induction args with
  | nil => rfl
  | cons a rest ih =>
    have ha1 : a ≠ "--runs" := fun e => h1 (e ▸ List.mem_cons_self a rest)
    have ha2 : a ≠ "--network" := fun e => h2 (e ▸ List.mem_cons_self a rest)
    have hr1 : "--runs" ∉ rest := fun m => h1 (List.mem_cons_of_mem a m)
    have hr2 : "--network" ∉ rest := fun m => h2 (List.mem_cons_of_mem a m)
    cases rest with
    | nil => rfl
    | cons v rest2 =>
      show (if a = "--runs" then _ else if a = "--network" then _ else
        parseLoop (v :: rest2) runs net) = _
      rw [if_neg ha1, if_neg ha2]
      exact ih hr1 hr2

/-! Claim theorems. -/

/-- C3: For every set of raw performance samples, the statistical summary's
mean, median and standard deviation are computed from the IQR-trimmed
sample set — which is a subset of the raw samples — not from the raw
samples themselves. -/
theorem C3_summary_from_trimmed (samples : List ℚ) :
    (computeSummary samples).mean = qmean (iqrTrim samples) ∧
    (computeSummary samples).median = qmedian (iqrTrim samples) ∧
    (computeSummary samples).stddev = specStddev (iqrTrim samples) ∧
    ∀ x ∈ iqrTrim samples, x ∈ samples :=
  ⟨rfl, rfl, rfl, fun _ hx => (mem_iqrTrim.mp hx).1⟩

/-- C4: For every raw sample list whose IQR-trimmed sample set is
non-empty, the summary's median field equals the middle value of the
trimmed set after sorting, and that value is itself one of the trimmed
samples. -/
theorem C4_median_is_sorted_middle (samples : List ℚ)
    (h : iqrTrim samples ≠ []) :
    (computeSummary samples).median =
      (sortQ (iqrTrim samples)).getD ((iqrTrim samples).length / 2) 0 ∧
    (computeSummary samples).median ∈ iqrTrim samples :=
  ⟨rfl, qmedian_mem h⟩

theorem C4_median_is_sorted_middle_witness :
    iqrTrim [1, 2, 3] ≠ [] ∧
    (computeSummary [1, 2, 3]).median =
      (sortQ (iqrTrim [1, 2, 3])).getD ((iqrTrim [1, 2, 3]).length / 2) 0 ∧
    (computeSummary [1, 2, 3]).median ∈ iqrTrim [1, 2, 3] :=
  ⟨iqrTrim_ne_nil (by decide),
   C4_median_is_sorted_middle [1, 2, 3] (iqrTrim_ne_nil (by decide))⟩

theorem C3_summary_from_trimmed_witness :
    (computeSummary [1, 2, 3]).mean = qmean (iqrTrim [1, 2, 3]) ∧
    (computeSummary [1, 2, 3]).median = qmedian (iqrTrim [1, 2, 3]) ∧
    (computeSummary [1, 2, 3]).stddev = specStddev (iqrTrim [1, 2, 3]) ∧
    ∀ x ∈ iqrTrim [1, 2, 3], x ∈ [(1 : ℚ), 2, 3] :=
  C3_summary_from_trimmed [1, 2, 3]

/-- C5: Pages are exactly home and board; a statistical summary carries
exactly the fields mean, median, stddev, min, max and runs; an aggregated
record is keyed by its framework and page and carries the compression-type,
Chrome-version and timestamp metadata fields; the run-level metadata of the
JSON report carries the timestamp and network condition alongside the
aggregated records, which it embeds unchanged; and every record collected
by the measurement loop is one of a subprocess's parsed records,
unchanged. -/
theorem C5_record_shape :
    (∀ p : Page, p = Page.home ∨ p = Page.board) ∧
    (∀ s : StatisticalSummary,
      s = StatisticalSummary.mk s.mean s.median s.stddev s.min s.max s.runs) ∧
    (∀ a : AggregatedStats,
      a = AggregatedStats.mk a.framework a.page a.jsTransferred a.jsUncompressed
        a.compressionRatio a.performanceScore a.fcp a.lcp a.tbt a.cls a.si
        a.compressionType a.chromeVersion a.measurementTimestamp) ∧
    (∀ (now : String) (numRuns : Int) (network : String) (rs : List AggregatedStats),
      (resultsData now numRuns network rs).results = rs ∧
      (resultsData now numRuns network rs).metadata.timestamp = now ∧
      (resultsData now numRuns network rs).metadata.networkCondition = network) ∧
    (∀ (meas : Framework → Option (List AggregatedStats)) (r : AggregatedStats),
      r ∈ (runMeasurements meas FRAMEWORKS).results →
      ∃ fw ∈ FRAMEWORKS, ∃ rs, meas fw = some rs ∧ r ∈ rs) := by
  refine ⟨fun p => by cases p <;> simp, fun _ => rfl, fun _ => rfl,
    fun _ _ _ _ => ⟨rfl, rfl, rfl⟩, ?_⟩
  intro meas r hr
  rw [runMeasurements_eq] at hr
  rcases List.mem_flatten.mp hr with ⟨l, hl, hrl⟩
  rcases List.mem_filterMap.mp hl with ⟨fw, hfw, hmeas⟩
  exact ⟨fw, hfw, l, hmeas, hrl⟩

theorem C5_record_shape_witness :
    (Page.board = Page.home ∨ Page.board = Page.board) ∧
    (resultsData "T" 10 "4g" []).results = [] ∧
    (resultsData "T" 10 "4g" []).metadata.networkCondition = "4g" :=
  ⟨C5_record_shape.1 Page.board,
   (C5_record_shape.2.2.2.1 "T" 10 "4g" []).1,
   (C5_record_shape.2.2.2.1 "T" 10 "4g" []).2.2⟩

/-- C6: The measurement loop is strictly sequential: it produces exactly
one subprocess-completion event per framework, in FRAMEWORKS order; a
failure does not cancel the run (the trace still covers every framework)
and only skips that framework (the collected results are exactly the
concatenation of the successful frameworks' parsed records, in order). -/
theorem C6_sequential_measurement
    (meas : Framework → Option (List AggregatedStats)) :
    (runMeasurements meas FRAMEWORKS).trace =
      FRAMEWORKS.map (fun fw => Event.measured fw.name (meas fw).isSome) ∧
    (runMeasurements meas FRAMEWORKS).trace.length = FRAMEWORKS.length ∧
    (runMeasurements meas FRAMEWORKS).results =
      (FRAMEWORKS.filterMap meas).flatten := by
  rw [runMeasurements_eq]
  exact ⟨rfl, by simp, rfl⟩

theorem C6_sequential_measurement_witness :
    (runMeasurements (fun _ => none) FRAMEWORKS).trace =
      FRAMEWORKS.map (fun fw => Event.measured fw.name false) ∧
    (runMeasurements (fun _ => none) FRAMEWORKS).trace.length = FRAMEWORKS.length ∧
    (runMeasurements (fun _ => none) FRAMEWORKS).results =
      (FRAMEWORKS.filterMap fun _ => none).flatten :=
  C6_sequential_measurement fun _ => none

/-- C1: If the measurement subprocess for a framework of FRAMEWORKS fails,
that framework's name is recorded in the failure list, the failure event is
logged in the trace, measurement continues with every remaining framework
(the trace covers all of FRAMEWORKS and the results still collect every
successful framework's records), and the final markdown report carries the
Failed Measurements section listing the failed frameworks instead of the
run aborting. -/
theorem C1_subprocess_failure_isolated
    (meas : Framework → Option (List AggregatedStats)) (fw : Framework)
    (now : String) (numRuns : Int)
    (h1 : fw ∈ FRAMEWORKS) (h2 : meas fw = none) :
    fw.name ∈ (runMeasurements meas FRAMEWORKS).failed ∧
    Event.measured fw.name false ∈ (runMeasurements meas FRAMEWORKS).trace ∧
    (runMeasurements meas FRAMEWORKS).trace =
      FRAMEWORKS.map (fun f => Event.measured f.name (meas f).isSome) ∧
    (runMeasurements meas FRAMEWORKS).results =
      (FRAMEWORKS.filterMap meas).flatten ∧
    finalMarkdown now numRuns (runMeasurements meas FRAMEWORKS).results
        (runMeasurements meas FRAMEWORKS).failed =
      mdBase now numRuns (runMeasurements meas FRAMEWORKS).results ++
        failedSection (runMeasurements meas FRAMEWORKS).failed := by
  rw [runMeasurements_eq]
  have hfail : fw.name ∈ (FRAMEWORKS.filter fun f => (meas f).isNone).map Framework.name :=
    List.mem_map_of_mem _ (List.mem_filter.mpr ⟨h1, by rw [h2]; rfl⟩)
  refine ⟨hfail, ?_, rfl, rfl, ?_⟩
  · have hm := List.mem_map_of_mem (fun f => Event.measured f.name (meas f).isSome) h1
    simpa [h2] using hm
  · rw [finalMarkdown, if_pos (List.length_pos.mpr (List.ne_nil_of_mem hfail))]

theorem C1_subprocess_failure_isolated_witness :
    (⟨"Next.js", "kanban-nextjs", [".next", "dist"]⟩ : Framework) ∈ FRAMEWORKS ∧
    "Next.js" ∈ (runMeasurements (fun _ => none) FRAMEWORKS).failed :=
  ⟨by decide,
   (C1_subprocess_failure_isolated (fun _ => none)
     ⟨"Next.js", "kanban-nextjs", [".next", "dist"]⟩ "T" 10 (by decide) rfl).1⟩

/-- C2: With validly parsed arguments, if some framework's build artifact
is missing (no buildCheck directory exists) the whole run aborts with exit
code 1 — for every subprocess oracle, hence before any measurement
subprocess is launched — and if every framework has a build directory
present, the missing-builds list is empty and validation passes for all of
them. -/
theorem C2_build_validation (ex : String → Bool)
    (meas : Framework → Option (List AggregatedStats))
    (now : String) (args : List String) (cfg : Config)
    (h : parseArgs args = Except.ok cfg) :
    ((∃ fw ∈ FRAMEWORKS, checkBuildExists ex fw = false) →
      mainModel ex meas now args = Except.error 1) ∧
    ((∀ fw ∈ FRAMEWORKS, checkBuildExists ex fw = true) →
      missingBuilds ex = []) := by
  constructor
  · rintro ⟨fw, hfw, hbuild⟩
    have hmem : fw.name ∈ missingBuilds ex :=
      List.mem_map_of_mem _ (List.mem_filter.mpr ⟨hfw, by rw [hbuild]; rfl⟩)
    have hpos : 0 < (missingBuilds ex).length :=
      List.length_pos.mpr (List.ne_nil_of_mem hmem)
    simp [mainModel, h, hpos]
  · intro hall
    have hnil : (FRAMEWORKS.filter fun fw => !(checkBuildExists ex fw)) = [] :=
      List.filter_eq_nil_iff.mpr fun fw hfw => by rw [hall fw hfw]; simp
    simp [missingBuilds, hnil]

theorem C2_build_validation_witness :
    parseArgs [] = Except.ok ⟨10, "4g"⟩ ∧
    mainModel (fun _ => false) (fun _ => none) "T" [] = Except.error 1 :=
  ⟨rfl,
   (C2_build_validation (fun _ => false) (fun _ => none) "T" [] ⟨10, "4g"⟩ rfl).1
     ⟨⟨"Analog", "kanban-analog", ["dist"]⟩, by decide, by decide⟩⟩

/-- C7: After the measurement loop completes, a valid run produces exactly
three file writes, to the metrics directory, in order: the aggregate JSON
results (final-measurements.json), the markdown comparison tables
(final-measurements.md) and the legacy JSON summary (bundle-summary.json);
the three paths are pairwise distinct (each report is written exactly
once), and every content is derived from the collected aggregated results
and failure list. -/
theorem C7_reports_written_once (ex : String → Bool)
    (meas : Framework → Option (List AggregatedStats))
    (now : String) (args : List String) (cfg : Config)
    (h1 : parseArgs args = Except.ok cfg)
    (h2 : missingBuilds ex = []) :
    mainModel ex meas now args =
      Except.ok ⟨runMeasurements meas FRAMEWORKS,
        reportWrites now cfg (runMeasurements meas FRAMEWORKS)⟩ ∧
    (reportWrites now cfg (runMeasurements meas FRAMEWORKS)).map Prod.fst =
      ["metrics/final-measurements.json", "metrics/final-measurements.md",
       "metrics/bundle-summary.json"] ∧
    ((reportWrites now cfg (runMeasurements meas FRAMEWORKS)).map Prod.fst).Nodup ∧
    (∀ w ∈ reportWrites now cfg (runMeasurements meas FRAMEWORKS),
      w.2 = ReportContent.jsonData (resultsData now cfg.runs cfg.network
              (runMeasurements meas FRAMEWORKS).results) ∨
      w.2 = ReportContent.mdText (finalMarkdown now cfg.runs
              (runMeasurements meas FRAMEWORKS).results
              (runMeasurements meas FRAMEWORKS).failed) ∨
      w.2 = ReportContent.legacyData (legacySummary now
              (runMeasurements meas FRAMEWORKS).results)) := by
  refine ⟨?_, rfl,
    (by decide : (["metrics/final-measurements.json", "metrics/final-measurements.md",
      "metrics/bundle-summary.json"] : List String).Nodup), ?_⟩
  · simp [mainModel, h1, h2]
  · intro w hw
    simp only [reportWrites, List.mem_cons, List.not_mem_nil, or_false] at hw
    rcases hw with rfl | rfl | rfl
    · exact Or.inl rfl
    · exact Or.inr (Or.inl rfl)
    · exact Or.inr (Or.inr rfl)

theorem C7_reports_written_once_witness :
    parseArgs [] = Except.ok ⟨10, "4g"⟩ ∧
    missingBuilds (fun _ => true) = [] ∧
    mainModel (fun _ => true) (fun _ => none) "T" [] =
      Except.ok ⟨runMeasurements (fun _ => none) FRAMEWORKS,
        reportWrites "T" ⟨10, "4g"⟩ (runMeasurements (fun _ => none) FRAMEWORKS)⟩ :=
  ⟨rfl, by decide,
   (C7_reports_written_once (fun _ => true) (fun _ => none) "T" [] ⟨10, "4g"⟩
     rfl (by decide)).1⟩

/-- C8: For every result list and page, the table's data rows are exactly
the records of that page — a permutation of the page filter, so exactly one
row per matching record and none for the other page — ordered by ascending
median raw bundle size (smallest first), and the produced markdown is the
header, those rows in order, and the footer. -/
theorem C8_table_rows (results : List AggregatedStats) (page : Page) :
    (∀ r ∈ sortedByBundle results page, r.page = page) ∧
    (sortedByBundle results page).Perm (pageResults results page) ∧
    (sortedByBundle results page).Sorted bundleLE ∧
    generateMarkdownTable results page =
      tableHeaderStr page ++
      String.join ((sortedByBundle results page).map rowString) ++
      tableFooterStr
        (jsOrQ ((sortedByBundle results page).head?.map fun r => r.jsTransferred.runs) 3)
        (jsOrS ((sortedByBundle results page).head?.map fun r => r.compressionType) "gzip") := by
  refine ⟨?_, List.perm_insertionSort _ _, List.sorted_insertionSort _ _, rfl⟩
  intro r hr
  have hmem : r ∈ pageResults results page :=
    (List.perm_insertionSort _ _).mem_iff.mp hr
  have := (List.mem_filter.mp hmem).2
  simpa using this

theorem C8_table_rows_witness :
    (∀ r ∈ sortedByBundle [] Page.home, r.page = Page.home) ∧
    (sortedByBundle [] Page.home).Perm (pageResults [] Page.home) ∧
    (sortedByBundle [] Page.home).Sorted bundleLE ∧
    generateMarkdownTable [] Page.home =
      tableHeaderStr Page.home ++
      String.join ((sortedByBundle [] Page.home).map rowString) ++
      tableFooterStr
        (jsOrQ ((sortedByBundle [] Page.home).head?.map fun r => r.jsTransferred.runs) 3)
        (jsOrS ((sortedByBundle [] Page.home).head?.map fun r => r.compressionType) "gzip") :=
  C8_table_rows [] Page.home

/-- C10: On an empty result set the table generator is total and returns
the well-formed table skeleton: the headers, zero data rows, and the footer
falling back to reporting 3 measurement runs and compression type gzip. -/
theorem C10_empty_table (page : Page) :
    sortedByBundle [] page = [] ∧
    generateMarkdownTable [] page =
      tableHeaderStr page ++ tableFooterStr 3 "gzip" := by
  refine ⟨rfl, ?_⟩
  show tableHeaderStr page ++ String.join [] ++
      tableFooterStr (jsOrQ none 3) (jsOrS none "gzip") =
    tableHeaderStr page ++ tableFooterStr 3 "gzip"
  rw [show String.join [] = "" from rfl, String.append_empty]
  rfl

theorem C10_empty_table_witness :
    sortedByBundle [] Page.board = [] ∧
    generateMarkdownTable [] Page.board =
      tableHeaderStr Page.board ++ tableFooterStr 3 "gzip" :=
  C10_empty_table Page.board

/-- C9: A --runs value that does not parse as a number or is below 1, and a
--network value outside 4g, 3g and slow-3g, make argument parsing exit with
code 1; a parse failure makes the whole run exit with code 1 for every
filesystem and subprocess oracle, hence before build validation and before
any measurement; and without the flags the defaults of 10 runs and the 4g
network condition are used. -/
theorem C9_cli_validation :
    (∀ (runs : Int) (net v : String) (rest : List String),
      (jsParseInt v = none ∨ ∃ n, jsParseInt v = some n ∧ n < 1) →
      parseLoop ("--runs" :: v :: rest) runs net = Except.error 1) ∧
    (∀ (runs : Int) (net v : String) (rest : List String),
      v ≠ "4g" → v ≠ "3g" → v ≠ "slow-3g" →
      parseLoop ("--network" :: v :: rest) runs net = Except.error 1) ∧
    (∀ (args : List String) (ex : String → Bool)
      (meas : Framework → Option (List AggregatedStats)) (now : String),
      parseArgs args = Except.error 1 → mainModel ex meas now args = Except.error 1) ∧
    (∀ (args : List String) (runs : Int) (net : String),
      "--runs" ∉ args → "--network" ∉ args →
      parseLoop args runs net = Except.ok ⟨runs, net⟩) ∧
    parseArgs [] = Except.ok ⟨10, "4g"⟩ := by
  refine ⟨?_, ?_, ?_, parseLoop_no_flags, rfl⟩
  · rintro runs net v rest (hnone | ⟨n, hn, hlt⟩)
    · show (if "--runs" = "--runs" then
          match jsParseInt v with
          | none => Except.error 1
          | some n => if n < 1 then Except.error 1 else parseLoop rest n net
        else _) = Except.error 1
      rw [if_pos rfl, hnone]
    · show (if "--runs" = "--runs" then
          match jsParseInt v with
          | none => Except.error 1
          | some n => if n < 1 then Except.error 1 else parseLoop rest n net
        else _) = Except.error 1
      rw [if_pos rfl, hn]
      exact if_pos hlt
  · intro runs net v rest h4 h3 hs
    show (if "--network" = "--runs" then _
      else if "--network" = "--network" then
        if v = "4g" ∨ v = "3g" ∨ v = "slow-3g" then parseLoop rest runs v
        else Except.error 1
      else _) = Except.error 1
    rw [if_neg (by decide), if_pos rfl, if_neg (by simp [h4, h3, hs])]
  · intro args ex meas now h
    simp [mainModel, h]

theorem C9_cli_validation_witness :
    parseLoop ["--runs", "abc"] 10 "4g" = Except.error 1 ∧
    parseLoop ["--runs", "0"] 7 "3g" = Except.error 1 ∧
    parseLoop ["--network", "5g"] 10 "4g" = Except.error 1 ∧
    mainModel (fun _ => true) (fun _ => none) "T" ["--runs", "abc"] = Except.error 1 ∧
    parseLoop ["x"] 10 "4g" = Except.ok ⟨10, "4g"⟩ :=
  ⟨C9_cli_validation.1 10 "4g" "abc" [] (Or.inl (by decide)),
   C9_cli_validation.1 7 "3g" "0" [] (Or.inr ⟨0, by decide, by decide⟩),
   C9_cli_validation.2.1 10 "4g" "5g" [] (by decide) (by decide) (by decide),
   C9_cli_validation.2.2.1 ["--runs", "abc"] (fun _ => true) (fun _ => none) "T" rfl,
   C9_cli_validation.2.2.2.1 ["x"] 10 "4g" (by decide) (by decide)⟩

end MeasureFinal
